import Mathlib

/-!
Shallow embedding of the BMS dashboard page component
(src/app/bms_dashboard/page.tsx) and verification of its specification.

JavaScript numbers are modelled as rationals (ℚ); `Math.round` and
`Number.toFixed` are modelled exactly as integer rounding; nullable
database fields are modelled as `Option ℚ`; the JavaScript idiom
`x || 0` on a possibly-null number is modelled by `jsOrZero`.
-/

namespace BMS

/-- The `TimeFrame` union type: the values of the time-frame selector
(`today`, `7days`, `30days`). -/
inductive TimeFrame where
  | today
  | sevenDays
  | thirtyDays
deriving DecidableEq, Repr

/-- The three pre-aggregated counter columns of the statistics tables. -/
inductive Column where
  | today_count
  | weekly_count
  | monthly_count
deriving DecidableEq, Repr

/-- A row of the `intent_statistics` table, as read by the dashboard:
an intent-type label and the three time-bucketed counters.  Counters are
nullable in the database, hence `Option ℚ`. -/
structure IntentRow where
  intent_type : String
  today_count : Option ℚ := none
  weekly_count : Option ℚ := none
  monthly_count : Option ℚ := none
deriving DecidableEq, Repr

/-- The single row of `psid_inputs_statistics` read by the dashboard:
three time-bucketed chat counters. -/
structure PsidRow where
  today_count : Option ℚ := none
  weekly_count : Option ℚ := none
  monthly_count : Option ℚ := none
deriving DecidableEq, Repr

/-- A row of the `purchase` table: a nullable monetary value. -/
structure PurchaseRow where
  value : Option ℚ := none
deriving DecidableEq, Repr

/-- The JavaScript idiom `x || 0` applied to a possibly-null number:
`null` and `0` both give `0`, any other number is returned unchanged. -/
def jsOrZero (o : Option ℚ) : ℚ :=
  match o with
  | none => 0
  | some x => if x = 0 then 0 else x

/-- JavaScript `Math.round`: round half toward positive infinity,
i.e. `Math.round x = ⌊x + 1/2⌋`. -/
def jsRound (q : ℚ) : ℤ := ⌊q + 1 / 2⌋

/-- The component method `calculatePercentage`: returns `0` when the
denominator is exactly `0`, otherwise `Math.round ((numerator / denominator) * 100)`. -/
def calculatePercentage (numerator denominator : ℚ) : ℤ :=
  if denominator = 0 then 0
  else jsRound (numerator / denominator * 100)

/-- The percentage formula as the specification states it:
`round (100 * a / b)` when `b > 0`, and `0` otherwise (so also for `b < 0`). -/
def specPercentage (a b : ℚ) : ℤ :=
  if b > 0 then jsRound (100 * a / b) else 0

/-- The percentage formula the code actually implements: `0` exactly when
`b = 0` (so a negative `b` is NOT mapped to `0`), else `round (100 * a / b)`. -/
def specPercentageFixed (a b : ℚ) : ℤ :=
  if b = 0 then 0 else jsRound (100 * a / b)

/-- The `countColumn` selection performed at the top of `fetchMetrics`:
the ternary chain `timeFrame === 'today' ? 'today_count' :
timeFrame === '7days' ? 'weekly_count' : 'monthly_count'`. -/
def fetchMetricsCountColumn (tf : TimeFrame) : Column :=
  if tf = TimeFrame.today then Column.today_count
  else if tf = TimeFrame.sevenDays then Column.weekly_count
  else Column.monthly_count

/-- The identical `countColumn` selection performed at the top of
`fetchHistoricalData`. -/
def fetchHistoricalCountColumn (tf : TimeFrame) : Column :=
  if tf = TimeFrame.today then Column.today_count
  else if tf = TimeFrame.sevenDays then Column.weekly_count
  else Column.monthly_count

/-- The column-per-time-frame mapping as the specification states it:
today reads `today_count`, the 7-day selection reads `weekly_count`,
the 30-day selection reads `monthly_count`. -/
def specTimeFrameColumn : TimeFrame → Column
  | TimeFrame.today => Column.today_count
  | TimeFrame.sevenDays => Column.weekly_count
  | TimeFrame.thirtyDays => Column.monthly_count

/-- Reading the selected counter column of an intent row:
`item[countColumn]` in the source. -/
def readIntentCol (col : Column) (item : IntentRow) : Option ℚ :=
  match col with
  | Column.today_count => item.today_count
  | Column.weekly_count => item.weekly_count
  | Column.monthly_count => item.monthly_count

/-- Reading the selected counter column of the PSID-inputs row:
`psidData[countColumn]` in the source. -/
def readPsidCol (col : Column) (row : PsidRow) : Option ℚ :=
  match col with
  | Column.today_count => row.today_count
  | Column.weekly_count => row.weekly_count
  | Column.monthly_count => row.monthly_count

/-- The eight per-intent accumulators declared with `let ... = 0` in
`fetchMetrics`. -/
structure IntentTotals where
  totalLead : ℚ
  totalBuy : ℚ
  totalViewContent : ℚ
  totalAddToCart : ℚ
  totalInitiateCheckout : ℚ
  totalSpam : ℚ
  totalBlocking : ℚ
  totalBan : ℚ
deriving DecidableEq, Repr

/-- All eight accumulators initialised to `0`. -/
def zeroIntentTotals : IntentTotals :=
  { totalLead := 0, totalBuy := 0, totalViewContent := 0, totalAddToCart := 0
    totalInitiateCheckout := 0, totalSpam := 0, totalBlocking := 0, totalBan := 0 }

/-- One iteration of the `intentData.forEach` loop in `fetchMetrics`:
`const count = item[countColumn] || 0` followed by the `switch` on
`item.intent_type` whose cases are the literal strings used by the code. -/
def stepIntent (col : Column) (acc : IntentTotals) (item : IntentRow) : IntentTotals :=
  let count := jsOrZero (readIntentCol col item)
  if item.intent_type = "Lead" then { acc with totalLead := acc.totalLead + count }
  else if item.intent_type = "Purchase" then { acc with totalBuy := acc.totalBuy + count }
  else if item.intent_type = "VC" then { acc with totalViewContent := acc.totalViewContent + count }
  else if item.intent_type = "ATC" then { acc with totalAddToCart := acc.totalAddToCart + count }
  else if item.intent_type = "IC" then { acc with totalInitiateCheckout := acc.totalInitiateCheckout + count }
  else if item.intent_type = "Move to Spam" then { acc with totalSpam := acc.totalSpam + count }
  else if item.intent_type = "Blocking" then { acc with totalBlocking := acc.totalBlocking + count }
  else if item.intent_type = "Ban" then { acc with totalBan := acc.totalBan + count }
  else acc

/-- The whole `if (intentData) intentData.forEach(...)` aggregation of
`fetchMetrics`: a left fold of `stepIntent` starting from zeros; a null
`intentData` leaves every accumulator at `0`. -/
def intentTotalsOf (col : Column) (intentData : Option (List IntentRow)) : IntentTotals :=
  (intentData.getD []).foldl (stepIntent col) zeroIntentTotals

/-- The `MetricData` interface: the twelve fields of the metrics state. -/
structure MetricData where
  totalChat : ℚ
  totalLead : ℚ
  totalBuy : ℚ
  totalBuyValue : ℚ
  totalGoodCustomer : ℚ
  totalViewContent : ℚ
  totalAddToCart : ℚ
  totalInitiateCheckout : ℚ
  totalBadCustomer : ℚ
  totalSpam : ℚ
  totalBlocking : ℚ
  totalBan : ℚ
deriving DecidableEq, Repr

/-- The `useState` initialiser of the metrics state: every field `0`. -/
def initialMetrics : MetricData :=
  { totalChat := 0, totalLead := 0, totalBuy := 0, totalBuyValue := 0
    totalGoodCustomer := 0, totalViewContent := 0, totalAddToCart := 0
    totalInitiateCheckout := 0, totalBadCustomer := 0, totalSpam := 0
    totalBlocking := 0, totalBan := 0 }

/-- The data successfully fetched by `fetchMetrics`: the (possibly null)
PSID-inputs row, intent-statistics rows and purchase rows. -/
structure FetchInput where
  psid : Option PsidRow := none
  intentRows : Option (List IntentRow) := none
  purchases : Option (List PurchaseRow) := none
deriving Repr

/-- The purchase-value summation of `fetchMetrics`:
`purchaseData?.reduce((sum, item) => sum + (item.value || 0), 0) || 0`. -/
def totalBuyValueOf (purchases : Option (List PurchaseRow)) : ℚ :=
  jsOrZero (purchases.map fun l => l.foldl (fun sum item => sum + jsOrZero item.value) 0)

/-- The pure computation of `fetchMetrics` on successfully fetched data:
`totalChat` from the PSID row, the eight intent totals from the `forEach`
loop, the derived good/bad customer totals, and the purchase-value sum,
assembled into the `MetricData` record passed to `setMetrics`. -/
def computeMetrics (tf : TimeFrame) (input : FetchInput) : MetricData :=
  let col := fetchMetricsCountColumn tf
  let totalChat := jsOrZero (input.psid.bind (readPsidCol col))
  let t := intentTotalsOf col input.intentRows
  { totalChat := totalChat
    totalLead := t.totalLead
    totalBuy := t.totalBuy
    totalBuyValue := totalBuyValueOf input.purchases
    totalGoodCustomer :=
      t.totalAddToCart + t.totalInitiateCheckout + t.totalLead + t.totalBuy + t.totalViewContent
    totalViewContent := t.totalViewContent
    totalAddToCart := t.totalAddToCart
    totalInitiateCheckout := t.totalInitiateCheckout
    totalBadCustomer := t.totalBan + t.totalBlocking + t.totalSpam
    totalSpam := t.totalSpam
    totalBlocking := t.totalBlocking
    totalBan := t.totalBan }

/-- Outcome of one run of `fetchMetrics`: either some step threw (the
`catch` branch runs) or all fetches succeeded with the given data. -/
inductive FetchOutcome where
  | failure
  | success (input : FetchInput)

/-- The metrics-state transition performed by one run of `fetchMetrics`:
on success the state is replaced via `setMetrics`; in the `catch` branch
the error is only logged, so the state is left unchanged. -/
def metricsUpdate (tf : TimeFrame) (prev : MetricData) : FetchOutcome → MetricData
  | FetchOutcome.failure => prev
  | FetchOutcome.success input => computeMetrics tf input

/-- Console lines emitted by one run of `fetchMetrics`: the `catch`
branch logs `console.error('Error fetching metrics:', error)`. -/
def fetchMetricsLog : FetchOutcome → List String
  | FetchOutcome.failure => ["Error fetching metrics:"]
  | FetchOutcome.success _ => []

/-- The intent-statistics query of `fetchHistoricalData`:
`.in('intent_type', ['Lead', 'Purchase'])` restricted to the rows of the
table whose label is `Lead` or `Purchase`. -/
def histQuery (table : List IntentRow) : List IntentRow :=
  table.filter fun r => r.intent_type == "Lead" || r.intent_type == "Purchase"

/-- One iteration of the `intentData.forEach` loop in
`fetchHistoricalData`: `totalLead = count` for a `Lead` row and
`totalBuy = count` for a `Purchase` row — plain assignment, not
accumulation. -/
def histStep (col : Column) (acc : ℚ × ℚ) (item : IntentRow) : ℚ × ℚ :=
  let count := jsOrZero (readIntentCol col item)
  if item.intent_type = "Lead" then (count, acc.2)
  else if item.intent_type = "Purchase" then (acc.1, count)
  else acc

/-- The `(totalLead, totalBuy)` pair computed by `fetchHistoricalData`
from its (possibly null) intent-statistics result, each starting at `0`. -/
def histLeadBuy (col : Column) (intentData : Option (List IntentRow)) : ℚ × ℚ :=
  (intentData.getD []).foldl (histStep col) (0, 0)

/-- One entry of the pie-chart data built by `fetchHistoricalData`:
a name, a raw value, and a percentage rendered as a string. -/
structure PieEntry where
  name : String
  value : ℚ
  percentage : String
deriving DecidableEq, Repr

/-- JavaScript `Number.prototype.toFixed(1)`: the sign is taken first,
then the magnitude is rounded to the nearest tenth with ties away from
zero, and the result is printed with exactly one decimal digit. -/
def toFixed1 (q : ℚ) : String :=
  if q < 0 then
    let n : ℤ := ⌊-q * 10 + 1 / 2⌋
    "-" ++ toString (n / 10) ++ "." ++ toString (n % 10)
  else
    let n : ℤ := ⌊q * 10 + 1 / 2⌋
    toString (n / 10) ++ "." ++ toString (n % 10)

/-- The pie-chart construction of `fetchHistoricalData`: three slices
(`Total Chat`, `Total Lead`, `Total Buy`), each with percentage
`((value / total) * 100).toFixed(1)` when `total > 0` and the literal
string `'0.0'` otherwise. -/
def chartDataOf (totalChat totalLead totalBuy : ℚ) : List PieEntry :=
  let total := totalChat + totalLead + totalBuy
  [ { name := "Total Chat", value := totalChat
      percentage := if total > 0 then toFixed1 (totalChat / total * 100) else "0.0" }
  , { name := "Total Lead", value := totalLead
      percentage := if total > 0 then toFixed1 (totalLead / total * 100) else "0.0" }
  , { name := "Total Buy", value := totalBuy
      percentage := if total > 0 then toFixed1 (totalBuy / total * 100) else "0.0" } ]

/-- The pure computation of `fetchHistoricalData` on successfully fetched
data, taking the full `intent_statistics` table and applying the
`.in('intent_type', ['Lead', 'Purchase'])` query before the `forEach`. -/
def computeHistoricalChart (tf : TimeFrame) (psid : Option PsidRow)
    (table : List IntentRow) : List PieEntry :=
  let col := fetchHistoricalCountColumn tf
  let totalChat := jsOrZero (psid.bind (readPsidCol col))
  let lb := histLeadBuy col (some (histQuery table))
  chartDataOf totalChat lb.1 lb.2

/-- One entry of the trend-analysis data built by
`fetchTrendAnalysisData`. -/
structure TrendEntry where
  name : String
  totalChat : ℚ
  totalLead : ℚ
  totalBuy : ℚ
deriving DecidableEq, Repr

/-- The pure computation of `fetchTrendAnalysisData` on its three
single-row query results (chat row, `Lead` row, `Purchase` row), each of
which may be null and each of whose counters may be null: every read is
of the form `data?.column || 0`. -/
def computeTrendData (chat lead buy : Option PsidRow) : List TrendEntry :=
  [ { name := "Today"
      totalChat := jsOrZero (chat.bind PsidRow.today_count)
      totalLead := jsOrZero (lead.bind PsidRow.today_count)
      totalBuy := jsOrZero (buy.bind PsidRow.today_count) }
  , { name := "7 Days (Exclude Today)"
      totalChat := jsOrZero (chat.bind PsidRow.weekly_count)
      totalLead := jsOrZero (lead.bind PsidRow.weekly_count)
      totalBuy := jsOrZero (buy.bind PsidRow.weekly_count) }
  , { name := "30 Days (Exclude Today)"
      totalChat := jsOrZero (chat.bind PsidRow.monthly_count)
      totalLead := jsOrZero (lead.bind PsidRow.monthly_count)
      totalBuy := jsOrZero (buy.bind PsidRow.monthly_count) } ]

/-! Specification-side helper definitions used to state the claims. -/

/-- Does the row carry the given intent-type label? -/
def isLabel (s : String) (r : IntentRow) : Bool :=
  r.intent_type == s

/-- The selected counter of the LAST row of the table carrying the given
label, or `0` when no row does: what assignment inside a `forEach` loop
leaves behind. -/
def lastCountOf (col : Column) (s : String) (table : List IntentRow) : ℚ :=
  match (table.filter (isLabel s)).getLast? with
  | none => 0
  | some r => jsOrZero (readIntentCol col r)

/-- The sum of the selected counters over ALL rows of the table carrying
the given label: what accumulation inside a `forEach` loop computes. -/
def sumCountOf (col : Column) (s : String) (table : List IntentRow) : ℚ :=
  ((table.filter (isLabel s)).map fun r => jsOrZero (readIntentCol col r)).sum

/-- Replacing a missing numeric field by an explicit `0`. -/
def fillOpt (o : Option ℚ) : Option ℚ :=
  some (o.getD 0)

/-- An intent row with every missing counter replaced by `0`. -/
def fillIntentRow (r : IntentRow) : IntentRow :=
  { intent_type := r.intent_type, today_count := fillOpt r.today_count
    weekly_count := fillOpt r.weekly_count, monthly_count := fillOpt r.monthly_count }

/-- A PSID row with every missing counter replaced by `0`. -/
def fillPsidRow (r : PsidRow) : PsidRow :=
  { today_count := fillOpt r.today_count, weekly_count := fillOpt r.weekly_count
    monthly_count := fillOpt r.monthly_count }

/-- A purchase row with a missing value replaced by `0`. -/
def fillPurchaseRow (r : PurchaseRow) : PurchaseRow :=
  { value := fillOpt r.value }

/-- A `fetchMetrics` result with every missing counter and purchase value
replaced by `0` (null query results stay null). -/
def fillInput (i : FetchInput) : FetchInput :=
  { psid := i.psid.map fillPsidRow
    intentRows := i.intentRows.map (List.map fillIntentRow)
    purchases := i.purchases.map (List.map fillPurchaseRow) }

/-- A possibly-missing numeric field is non-negative (a missing field
counts as `0`). -/
def optNonneg (o : Option ℚ) : Bool :=
  decide (0 ≤ o.getD 0)

/-- All three counters of an intent row are non-negative. -/
def intentRowNonneg (r : IntentRow) : Bool :=
  optNonneg r.today_count && optNonneg r.weekly_count && optNonneg r.monthly_count

/-- All three counters of the PSID row are non-negative. -/
def psidRowNonneg (r : PsidRow) : Bool :=
  optNonneg r.today_count && optNonneg r.weekly_count && optNonneg r.monthly_count

/-- The value of a purchase row is non-negative. -/
def purchaseRowNonneg (r : PurchaseRow) : Bool :=
  optNonneg r.value

/-- Every counter and purchase value of a `fetchMetrics` result is
non-negative. -/
def inputNonneg (i : FetchInput) : Bool :=
  i.psid.all psidRowNonneg &&
    (i.intentRows.all fun l => l.all intentRowNonneg) &&
    (i.purchases.all fun l => l.all purchaseRowNonneg)

/-- Every field of a `MetricData` record is non-negative. -/
def metricsNonneg (m : MetricData) : Prop :=
  0 ≤ m.totalChat ∧ 0 ≤ m.totalLead ∧ 0 ≤ m.totalBuy ∧ 0 ≤ m.totalBuyValue ∧
    0 ≤ m.totalGoodCustomer ∧ 0 ≤ m.totalViewContent ∧ 0 ≤ m.totalAddToCart ∧
    0 ≤ m.totalInitiateCheckout ∧ 0 ≤ m.totalBadCustomer ∧ 0 ≤ m.totalSpam ∧
    0 ≤ m.totalBlocking ∧ 0 ≤ m.totalBan

/-- The data carried by a `fetchMetrics` run outcome is non-negative
(a failed run carries no data). -/
def outcomeNonneg : FetchOutcome → Bool
  | FetchOutcome.failure => true
  | FetchOutcome.success input => inputNonneg input

/-! Helper lemmas. -/

theorem jsOrZero_eq_getD (o : Option ℚ) : jsOrZero o = o.getD 0 := by
  cases o with
  | none => rfl
  | some x =>
      by_cases h : x = 0
      · simp [jsOrZero, Option.getD, h]
      · simp [jsOrZero, Option.getD, h]

theorem sumCountOf_nil (col : Column) (s : String) : sumCountOf col s [] = 0 := rfl

theorem sumCountOf_cons (col : Column) (s : String) (r : IntentRow) (rs : List IntentRow) :
    sumCountOf col s (r :: rs) =
      (if r.intent_type = s then jsOrZero (readIntentCol col r) else 0) + sumCountOf col s rs := by
  by_cases h : r.intent_type = s <;>
    simp [sumCountOf, isLabel, List.filter_cons, h]

theorem foldl_stepIntent_char (col : Column) (rows : List IntentRow) (acc : IntentTotals) :
    rows.foldl (stepIntent col) acc =
      { totalLead := acc.totalLead + sumCountOf col "Lead" rows
        totalBuy := acc.totalBuy + sumCountOf col "Purchase" rows
        totalViewContent := acc.totalViewContent + sumCountOf col "VC" rows
        totalAddToCart := acc.totalAddToCart + sumCountOf col "ATC" rows
        totalInitiateCheckout := acc.totalInitiateCheckout + sumCountOf col "IC" rows
        totalSpam := acc.totalSpam + sumCountOf col "Move to Spam" rows
        totalBlocking := acc.totalBlocking + sumCountOf col "Blocking" rows
        totalBan := acc.totalBan + sumCountOf col "Ban" rows } := by
  induction rows generalizing acc with
  | nil => simp [sumCountOf_nil]
  | cons r rs ih =>
      rw [List.foldl_cons, ih]
      simp only [sumCountOf_cons, stepIntent]
      split_ifs <;> simp_all [IntentTotals.mk.injEq] <;> ring_nf

theorem intentTotalsOf_char (col : Column) (rows : List IntentRow) :
    intentTotalsOf col (some rows) =
      { totalLead := sumCountOf col "Lead" rows
        totalBuy := sumCountOf col "Purchase" rows
        totalViewContent := sumCountOf col "VC" rows
        totalAddToCart := sumCountOf col "ATC" rows
        totalInitiateCheckout := sumCountOf col "IC" rows
        totalSpam := sumCountOf col "Move to Spam" rows
        totalBlocking := sumCountOf col "Blocking" rows
        totalBan := sumCountOf col "Ban" rows } := by
  rw [intentTotalsOf, Option.getD_some, foldl_stepIntent_char]
  simp [zeroIntentTotals]

theorem lastCountOf_eq (col : Column) (s : String) (table : List IntentRow) :
    lastCountOf col s table =
      (((table.filter (isLabel s)).getLast?).map fun r =>
        jsOrZero (readIntentCol col r)).getD 0 := by
  cases hx : (table.filter (isLabel s)).getLast? <;> simp [lastCountOf, hx]

theorem foldl_histStep_char (col : Column) (rows : List IntentRow) (acc : ℚ × ℚ) :
    rows.foldl (histStep col) acc =
      ((((rows.filter (isLabel "Lead")).getLast?).map fun r =>
          jsOrZero (readIntentCol col r)).getD acc.1,
       (((rows.filter (isLabel "Purchase")).getLast?).map fun r =>
          jsOrZero (readIntentCol col r)).getD acc.2) := by
  induction rows using List.reverseRecOn with
  | nil => simp
  | append_singleton l a ih =>
      rw [List.foldl_append, List.foldl_cons, List.foldl_nil, ih]
      by_cases hL : a.intent_type = "Lead"
      · have hP : ¬a.intent_type = "Purchase" := by rw [hL]; decide
        simp [histStep, hL, hP, isLabel, List.filter_append, List.getLast?_concat]
      · by_cases hP : a.intent_type = "Purchase"
        · simp [histStep, hL, hP, isLabel, List.filter_append, List.getLast?_concat]
        · simp [histStep, hL, hP, isLabel, List.filter_append]

/-- Claim C2, counterexample: the claim states that `calculatePercentage`
returns `0` for every non-positive denominator, but at the concrete input
`a = 1`, `b = -1` the code returns `Math.round ((1 / -1) * 100) = -100`,
not the `0` the claim predicts. -/
theorem calculatePercentage_neg_denominator_cx :
    calculatePercentage 1 (-1) = -100 ∧ specPercentage 1 (-1) = 0 ∧
      calculatePercentage 1 (-1) ≠ specPercentage 1 (-1) := by
  have h1 : calculatePercentage 1 (-1) = -100 := by
    norm_num [calculatePercentage, jsRound]
  have h2 : specPercentage 1 (-1) = 0 := by
    norm_num [specPercentage]
  exact ⟨h1, h2, by rw [h1, h2]; decide⟩

/-- Claim C2 (amended): `calculatePercentage a b` equals `round (100 * a / b)`
whenever `b ≠ 0` — including negative `b` — and equals `0` only for `b = 0`. -/
theorem calculatePercentage_eq_specFixed (a b : ℚ) :
    calculatePercentage a b = specPercentageFixed a b := by
  unfold calculatePercentage specPercentageFixed
  by_cases h : b = 0
  · simp [h]
  · have harg : a / b * 100 = 100 * a / b := by ring
    simp [h, harg]

/-- Claim C3: the totals assembled by `fetchMetrics` always satisfy
`totalGoodCustomer = totalAddToCart + totalInitiateCheckout + totalLead +
totalBuy + totalViewContent` and
`totalBadCustomer = totalBan + totalBlocking + totalSpam`. -/
theorem good_bad_customer_totals (tf : TimeFrame) (input : FetchInput) :
    (computeMetrics tf input).totalGoodCustomer =
        (computeMetrics tf input).totalAddToCart +
        (computeMetrics tf input).totalInitiateCheckout +
        (computeMetrics tf input).totalLead +
        (computeMetrics tf input).totalBuy +
        (computeMetrics tf input).totalViewContent ∧
      (computeMetrics tf input).totalBadCustomer =
        (computeMetrics tf input).totalBan +
        (computeMetrics tf input).totalBlocking +
        (computeMetrics tf input).totalSpam :=
  ⟨rfl, rfl⟩

/-- Claim C4, counterexample: the claim states that after a failing fetch
the metrics state is zero-valued, but the `catch` branch of `fetchMetrics`
never calls `setMetrics`, so a failure occurring after a successful fetch
leaves the previous non-zero metrics in place: here the state still has
`totalChat = 5` after the failure. -/
theorem metrics_not_zeroed_on_failure_cx :
    (metricsUpdate TimeFrame.today
        (computeMetrics TimeFrame.today
          { psid := some { today_count := some 5 }, intentRows := none, purchases := none })
        FetchOutcome.failure).totalChat = 5 ∧
      ((5 : ℚ) ≠ 0) := by
  refine ⟨by decide, by decide⟩

/-- Claim C4 (amended): when a fetch in `fetchMetrics` fails, the error is
caught and logged to the console and the metrics state is left unchanged;
the state is zero-valued after a failure only because the initial state is
zero-valued, i.e. when no successful fetch has happened before. -/
theorem metrics_failure_keeps_state :
    (∀ (tf : TimeFrame) (prev : MetricData),
        metricsUpdate tf prev FetchOutcome.failure = prev) ∧
      fetchMetricsLog FetchOutcome.failure = ["Error fetching metrics:"] ∧
      initialMetrics = MetricData.mk 0 0 0 0 0 0 0 0 0 0 0 0 :=
  ⟨fun _ _ => rfl, rfl, rfl⟩

/-- Claim C5: both `fetchMetrics` and `fetchHistoricalData` select exactly
the counter column the specification associates with the chosen time
frame: `today` reads `today_count`, the 7-day selection reads
`weekly_count`, and the 30-day selection reads `monthly_count`. -/
theorem countColumn_matches_timeFrame (tf : TimeFrame) :
    fetchMetricsCountColumn tf = specTimeFrameColumn tf ∧
      fetchHistoricalCountColumn tf = specTimeFrameColumn tf := by
  cases tf <;> exact ⟨rfl, rfl⟩

/-- Claim C1, counterexample: the claim states that a row labelled with
the glossary label `ViewContent` has its counter added to
`totalViewContent`, and that rows with any label outside the eight
glossary labels contribute to no total.  On the code both parts fail: a
row labelled `ViewContent` matches no `switch` case and contributes
nothing, while a row labelled `VC` — not a glossary label — is the one
that feeds `totalViewContent`. -/
theorem glossary_label_not_counted_cx :
    (computeMetrics TimeFrame.today
        { psid := none
          intentRows := some [{ intent_type := "ViewContent", today_count := some 1 }]
          purchases := none }).totalViewContent = 0 ∧
      (computeMetrics TimeFrame.today
        { psid := none
          intentRows := some [{ intent_type := "VC", today_count := some 1 }]
          purchases := none }).totalViewContent = 1 := by
  refine ⟨?_, ?_⟩ <;>
    norm_num [computeMetrics, intentTotalsOf, stepIntent, readIntentCol, jsOrZero,
      fetchMetricsCountColumn, zeroIntentTotals] <;>
    decide

/-- Claim C1 (amended): the labels `fetchMetrics` recognises are the
code's literal strings `Lead`, `Purchase`, `VC`, `ATC`, `IC`,
`Move to Spam`, `Blocking`, `Ban` — not the glossary names `ViewContent`,
`AddToCart`, `InitiateCheckout`, `Spam`.  Each per-category total equals
the sum of the selected time-bucket counters over exactly the rows
carrying its literal label, so a row with any other label (including the
four glossary spellings) contributes to no total. -/
theorem intent_totals_by_code_labels (tf : TimeFrame) (psid : Option PsidRow)
    (purchases : Option (List PurchaseRow)) (rows : List IntentRow) :
    (computeMetrics tf { psid := psid, intentRows := some rows, purchases := purchases }).totalLead
        = sumCountOf (fetchMetricsCountColumn tf) "Lead" rows ∧
      (computeMetrics tf { psid := psid, intentRows := some rows, purchases := purchases }).totalBuy
        = sumCountOf (fetchMetricsCountColumn tf) "Purchase" rows ∧
      (computeMetrics tf { psid := psid, intentRows := some rows, purchases := purchases }).totalViewContent
        = sumCountOf (fetchMetricsCountColumn tf) "VC" rows ∧
      (computeMetrics tf { psid := psid, intentRows := some rows, purchases := purchases }).totalAddToCart
        = sumCountOf (fetchMetricsCountColumn tf) "ATC" rows ∧
      (computeMetrics tf { psid := psid, intentRows := some rows, purchases := purchases }).totalInitiateCheckout
        = sumCountOf (fetchMetricsCountColumn tf) "IC" rows ∧
      (computeMetrics tf { psid := psid, intentRows := some rows, purchases := purchases }).totalSpam
        = sumCountOf (fetchMetricsCountColumn tf) "Move to Spam" rows ∧
      (computeMetrics tf { psid := psid, intentRows := some rows, purchases := purchases }).totalBlocking
        = sumCountOf (fetchMetricsCountColumn tf) "Blocking" rows ∧
      (computeMetrics tf { psid := psid, intentRows := some rows, purchases := purchases }).totalBan
        = sumCountOf (fetchMetricsCountColumn tf) "Ban" rows := by
  refine ⟨?_, ?_, ?_, ?_, ?_, ?_, ?_, ?_⟩ <;>
    simp [computeMetrics, intentTotalsOf_char]

/-- Claim C6: for a purchase list whose records carry the monetary values
`vs`, the `totalBuyValue` computed by `fetchMetrics` is exactly the sum of
those values. -/
theorem totalBuyValue_eq_sum (tf : TimeFrame) (psid : Option PsidRow)
    (intentRows : Option (List IntentRow)) (vs : List ℚ) :
    (computeMetrics tf
        { psid := psid, intentRows := intentRows
          purchases := some (vs.map fun v => { value := some v }) }).totalBuyValue
      = vs.sum := by
  show totalBuyValueOf (some (vs.map fun v => { value := some v })) = vs.sum
  rw [totalBuyValueOf, Option.map_some', jsOrZero_eq_getD, Option.getD_some, List.foldl_map]
  simp only [jsOrZero_eq_getD, Option.getD_some]
  rw [List.sum_eq_foldl]

/-- Claim C7: the three pie-chart slices built by `fetchHistoricalData`
carry the values `(totalChat, totalLead, totalBuy)`, and — the totals
being non-negative — each slice's percentage is its value divided by the
sum of the three, times `100`, rendered with `toFixed(1)`, except that
every slice reads `'0.0'` when the sum is `0`. -/
theorem chart_percentage_formula (c l b : ℚ) (h : 0 ≤ c + l + b) :
    (chartDataOf c l b).map PieEntry.value = [c, l, b] ∧
      (c + l + b = 0 →
        (chartDataOf c l b).map PieEntry.percentage = ["0.0", "0.0", "0.0"]) ∧
      (c + l + b ≠ 0 →
        (chartDataOf c l b).map PieEntry.percentage =
          [toFixed1 (c / (c + l + b) * 100), toFixed1 (l / (c + l + b) * 100),
            toFixed1 (b / (c + l + b) * 100)]) := by
  refine ⟨by simp [chartDataOf], fun h0 => ?_, fun hne => ?_⟩
  · simp [chartDataOf, h0]
  · have hpos : 0 < c + l + b := lt_of_le_of_ne h (Ne.symm hne)
    simp [chartDataOf, hpos]

/-- Witness for claim C7 at the concrete totals `(1, 1, 2)`. -/
theorem chart_percentage_formula_witness :
    (0 : ℚ) ≤ 1 + 1 + 2 ∧ (chartDataOf 1 1 2).map PieEntry.value = [1, 1, 2] :=
  ⟨by norm_num, (chart_percentage_formula 1 1 2 (by norm_num)).1⟩

theorem histQuery_filter_lead (table : List IntentRow) :
    (histQuery table).filter (isLabel "Lead") = table.filter (isLabel "Lead") := by
  rw [histQuery, List.filter_filter]
  apply List.filter_congr
  intro x _
  by_cases h : x.intent_type = "Lead" <;> simp [isLabel, h]

theorem histQuery_filter_purchase (table : List IntentRow) :
    (histQuery table).filter (isLabel "Purchase") = table.filter (isLabel "Purchase") := by
  rw [histQuery, List.filter_filter]
  apply List.filter_congr
  intro x _
  by_cases h : x.intent_type = "Purchase" <;> simp [isLabel, h]

theorem last_eq_sum_of_len_le_one (col : Column) (s : String) (table : List IntentRow)
    (h : (table.filter (isLabel s)).length ≤ 1) :
    lastCountOf col s table = sumCountOf col s table := by
  rcases hf : table.filter (isLabel s) with _ | ⟨r, rs⟩
  · simp [lastCountOf, sumCountOf, hf]
  · rw [hf] at h
    rcases rs with _ | ⟨r2, rs2⟩
    · simp [lastCountOf, sumCountOf, hf]
    · simp [List.length_cons] at h

/-- Claim C8: on any `intent_statistics` table, `fetchHistoricalData`
keeps the LAST `Lead` (resp. `Purchase`) row's selected counter as
`totalLead` (resp. `totalBuy`), while `fetchMetrics` SUMS the selected
counters over all such rows; consequently the two functions agree on
`totalLead` and `totalBuy` whenever the table holds at most one row per
intent type. -/
theorem hist_vs_metrics_lead_buy (tf : TimeFrame) (table : List IntentRow) :
    (histLeadBuy (fetchHistoricalCountColumn tf) (some (histQuery table))).1
        = lastCountOf (fetchHistoricalCountColumn tf) "Lead" table ∧
      (histLeadBuy (fetchHistoricalCountColumn tf) (some (histQuery table))).2
        = lastCountOf (fetchHistoricalCountColumn tf) "Purchase" table ∧
      (computeMetrics tf
          { psid := none, intentRows := some table, purchases := none }).totalLead
        = sumCountOf (fetchMetricsCountColumn tf) "Lead" table ∧
      (computeMetrics tf
          { psid := none, intentRows := some table, purchases := none }).totalBuy
        = sumCountOf (fetchMetricsCountColumn tf) "Purchase" table ∧
      ((table.filter (isLabel "Lead")).length ≤ 1 →
        (histLeadBuy (fetchHistoricalCountColumn tf) (some (histQuery table))).1
          = (computeMetrics tf
              { psid := none, intentRows := some table, purchases := none }).totalLead) ∧
      ((table.filter (isLabel "Purchase")).length ≤ 1 →
        (histLeadBuy (fetchHistoricalCountColumn tf) (some (histQuery table))).2
          = (computeMetrics tf
              { psid := none, intentRows := some table, purchases := none }).totalBuy) := by
  have hc : fetchHistoricalCountColumn tf = fetchMetricsCountColumn tf := rfl
  have h1 : (histLeadBuy (fetchHistoricalCountColumn tf) (some (histQuery table))).1
      = lastCountOf (fetchHistoricalCountColumn tf) "Lead" table := by
    rw [histLeadBuy, Option.getD_some, foldl_histStep_char, lastCountOf_eq,
      histQuery_filter_lead]
  have h2 : (histLeadBuy (fetchHistoricalCountColumn tf) (some (histQuery table))).2
      = lastCountOf (fetchHistoricalCountColumn tf) "Purchase" table := by
    rw [histLeadBuy, Option.getD_some, foldl_histStep_char, lastCountOf_eq,
      histQuery_filter_purchase]
  have h3 : (computeMetrics tf
      { psid := none, intentRows := some table, purchases := none }).totalLead
      = sumCountOf (fetchMetricsCountColumn tf) "Lead" table := by
    simp [computeMetrics, intentTotalsOf_char]
  have h4 : (computeMetrics tf
      { psid := none, intentRows := some table, purchases := none }).totalBuy
      = sumCountOf (fetchMetricsCountColumn tf) "Purchase" table := by
    simp [computeMetrics, intentTotalsOf_char]
  refine ⟨h1, h2, h3, h4, fun hl => ?_, fun hp => ?_⟩
  · rw [h1, h3, ← hc]
    exact last_eq_sum_of_len_le_one _ _ _ hl
  · rw [h2, h4, ← hc]
    exact last_eq_sum_of_len_le_one _ _ _ hp

/-- Witness for claim C8 on a one-row table. -/
theorem hist_vs_metrics_lead_buy_witness :
    (([({ intent_type := "Lead", today_count := some 3 } : IntentRow)].filter
        (isLabel "Lead")).length ≤ 1) ∧
      (histLeadBuy (fetchHistoricalCountColumn TimeFrame.today)
          (some (histQuery [{ intent_type := "Lead", today_count := some 3 }]))).1
        = (computeMetrics TimeFrame.today
            { psid := none
              intentRows := some [{ intent_type := "Lead", today_count := some 3 }]
              purchases := none }).totalLead :=
  ⟨by decide,
    (hist_vs_metrics_lead_buy TimeFrame.today
      [{ intent_type := "Lead", today_count := some 3 }]).2.2.2.2.1 (by decide)⟩

theorem jsOrZero_fillOpt (o : Option ℚ) : jsOrZero (fillOpt o) = jsOrZero o := by
  rw [jsOrZero_eq_getD, jsOrZero_eq_getD, fillOpt, Option.getD_some]

theorem readIntentCol_fill (col : Column) (r : IntentRow) :
    readIntentCol col (fillIntentRow r) = fillOpt (readIntentCol col r) := by
  cases col <;> rfl

theorem readPsidCol_fill (col : Column) (r : PsidRow) :
    readPsidCol col (fillPsidRow r) = fillOpt (readPsidCol col r) := by
  cases col <;> rfl

theorem fillIntentRow_intent_type (r : IntentRow) :
    (fillIntentRow r).intent_type = r.intent_type := rfl

theorem stepIntent_fill (col : Column) (acc : IntentTotals) (r : IntentRow) :
    stepIntent col acc (fillIntentRow r) = stepIntent col acc r := by
  simp only [stepIntent, readIntentCol_fill, jsOrZero_fillOpt, fillIntentRow_intent_type]

theorem histStep_fill (col : Column) (acc : ℚ × ℚ) (r : IntentRow) :
    histStep col acc (fillIntentRow r) = histStep col acc r := by
  simp only [histStep, readIntentCol_fill, jsOrZero_fillOpt, fillIntentRow_intent_type]

theorem intentTotalsOf_fill (col : Column) (d : Option (List IntentRow)) :
    intentTotalsOf col (d.map (List.map fillIntentRow)) = intentTotalsOf col d := by
  cases d with
  | none => rfl
  | some l =>
      rw [Option.map_some', intentTotalsOf, intentTotalsOf, Option.getD_some,
        Option.getD_some, List.foldl_map]
      simp only [stepIntent_fill]

theorem psid_chat_fill (col : Column) (o : Option PsidRow) :
    jsOrZero ((o.map fillPsidRow).bind (readPsidCol col))
      = jsOrZero (o.bind (readPsidCol col)) := by
  cases o <;> simp [readPsidCol_fill, jsOrZero_fillOpt]

theorem totalBuyValueOf_fill (d : Option (List PurchaseRow)) :
    totalBuyValueOf (d.map (List.map fillPurchaseRow)) = totalBuyValueOf d := by
  cases d with
  | none => rfl
  | some l =>
      rw [totalBuyValueOf, totalBuyValueOf, Option.map_some', Option.map_some',
        Option.map_some', List.foldl_map]
      simp only [fillPurchaseRow, jsOrZero_fillOpt]

theorem histQuery_map_fill (table : List IntentRow) :
    histQuery (table.map fillIntentRow) = (histQuery table).map fillIntentRow := by
  unfold histQuery
  rw [List.filter_map]
  refine congrArg _ (List.filter_congr ?_)
  intro x _
  simp [Function.comp, fillIntentRow_intent_type]

theorem histLeadBuy_fill (col : Column) (l : List IntentRow) :
    histLeadBuy col (some (l.map fillIntentRow)) = histLeadBuy col (some l) := by
  rw [histLeadBuy, histLeadBuy, Option.getD_some, Option.getD_some, List.foldl_map]
  simp only [histStep_fill]

/-- Claim C9: in `fetchMetrics`, `fetchHistoricalData` and
`fetchTrendAnalysisData`, every missing or null counter or purchase value
is treated as `0`: each computation gives exactly the result obtained
after replacing every missing field by an explicit `0`. -/
theorem missing_fields_treated_as_zero (tf : TimeFrame) (input : FetchInput)
    (psid chat lead buy : Option PsidRow) (table : List IntentRow) :
    computeMetrics tf (fillInput input) = computeMetrics tf input ∧
      computeHistoricalChart tf (psid.map fillPsidRow) (table.map fillIntentRow)
        = computeHistoricalChart tf psid table ∧
      computeTrendData (chat.map fillPsidRow) (lead.map fillPsidRow) (buy.map fillPsidRow)
        = computeTrendData chat lead buy := by
  refine ⟨?_, ?_, ?_⟩
  · simp only [computeMetrics, fillInput, psid_chat_fill, intentTotalsOf_fill,
      totalBuyValueOf_fill]
  · simp only [computeHistoricalChart, histQuery_map_fill, histLeadBuy_fill,
      psid_chat_fill]
  · cases chat <;> cases lead <;> cases buy <;>
      simp [computeTrendData, fillPsidRow, jsOrZero_fillOpt]

theorem jsOrZero_nonneg_of (o : Option ℚ) (h : optNonneg o = true) : 0 ≤ jsOrZero o := by
  rw [jsOrZero_eq_getD]
  simpa [optNonneg] using h

theorem sumCountOf_nonneg (col : Column) (s : String) (l : List IntentRow)
    (h : ∀ r ∈ l, intentRowNonneg r = true) : 0 ≤ sumCountOf col s l := by
  apply List.sum_nonneg
  intro x hx
  simp only [List.mem_map] at hx
  obtain ⟨r, hr, rfl⟩ := hx
  have hr2 := h r (List.mem_of_mem_filter hr)
  simp only [intentRowNonneg, Bool.and_eq_true] at hr2
  apply jsOrZero_nonneg_of
  cases col
  · exact hr2.1.1
  · exact hr2.1.2
  · exact hr2.2

theorem purchases_fold_nonneg :
    ∀ (l : List PurchaseRow) (s : ℚ), 0 ≤ s →
      (∀ r ∈ l, purchaseRowNonneg r = true) →
      0 ≤ l.foldl (fun sum item => sum + jsOrZero item.value) s := by
  intro l
  induction l with
  | nil =>
      intro s hs _
      simpa using hs
  | cons r rs ih =>
      intro s hs h
      rw [List.foldl_cons]
      apply ih
      · have hv := jsOrZero_nonneg_of r.value (h r (List.mem_cons_self r rs))
        linarith
      · intro x hx
        exact h x (List.mem_cons_of_mem _ hx)

theorem totalBuyValueOf_nonneg (d : Option (List PurchaseRow))
    (h : (d.all fun l => l.all purchaseRowNonneg) = true) : 0 ≤ totalBuyValueOf d := by
  cases d with
  | none => simp [totalBuyValueOf, jsOrZero]
  | some l =>
      rw [totalBuyValueOf, Option.map_some', jsOrZero_eq_getD, Option.getD_some]
      apply purchases_fold_nonneg l 0 le_rfl
      intro r hr
      rw [Option.all_some] at h
      exact List.all_eq_true.mp h r hr

/-- Claim C10: when every counter and purchase value in the fetched data
is non-negative, every field of the `MetricData` record built by
`fetchMetrics` is non-negative; the initial metrics state is
non-negative, and every state update the component performs (a successful
fetch replacing the state, or a failed fetch leaving it unchanged)
preserves non-negativity. -/
theorem metrics_nonneg_invariant :
    (∀ (tf : TimeFrame) (input : FetchInput), inputNonneg input = true →
        metricsNonneg (computeMetrics tf input)) ∧
      metricsNonneg initialMetrics ∧
      (∀ (tf : TimeFrame) (prev : MetricData) (outcome : FetchOutcome),
        metricsNonneg prev → outcomeNonneg outcome = true →
        metricsNonneg (metricsUpdate tf prev outcome)) := by
  have key : ∀ (tf : TimeFrame) (input : FetchInput), inputNonneg input = true →
      metricsNonneg (computeMetrics tf input) := by
    intro tf input h
    simp only [inputNonneg, Bool.and_eq_true] at h
    obtain ⟨⟨hpsid, hint⟩, hpur⟩ := h
    have hrows : ∀ r ∈ input.intentRows.getD [], intentRowNonneg r = true := by
      intro r hr
      cases hI : input.intentRows with
      | none => rw [hI] at hr; simp at hr
      | some l =>
          rw [hI] at hr hint
          rw [Option.getD_some] at hr
          rw [Option.all_some] at hint
          exact List.all_eq_true.mp hint r hr
    have hchat : 0 ≤ jsOrZero (input.psid.bind (readPsidCol (fetchMetricsCountColumn tf))) := by
      cases hP : input.psid with
      | none => simp [jsOrZero]
      | some p =>
          rw [hP] at hpsid
          rw [Option.all_some] at hpsid
          rw [Option.some_bind]
          apply jsOrZero_nonneg_of
          simp only [psidRowNonneg, Bool.and_eq_true] at hpsid
          cases fetchMetricsCountColumn tf
          · exact hpsid.1.1
          · exact hpsid.1.2
          · exact hpsid.2
    have hBV : 0 ≤ totalBuyValueOf input.purchases := totalBuyValueOf_nonneg _ hpur
    have hs : ∀ s, 0 ≤ sumCountOf (fetchMetricsCountColumn tf) s (input.intentRows.getD []) :=
      fun s => sumCountOf_nonneg _ s _ hrows
    simp only [computeMetrics, metricsNonneg, intentTotalsOf, foldl_stepIntent_char,
      zeroIntentTotals, zero_add]
    refine ⟨hchat, hs "Lead", hs "Purchase", hBV, ?_, hs "VC", hs "ATC", hs "IC", ?_,
      hs "Move to Spam", hs "Blocking", hs "Ban"⟩
    · have h1 := hs "ATC"
      have h2 := hs "IC"
      have h3 := hs "Lead"
      have h4 := hs "Purchase"
      have h5 := hs "VC"
      linarith
    · have h1 := hs "Ban"
      have h2 := hs "Blocking"
      have h3 := hs "Move to Spam"
      linarith
  refine ⟨key, ?_, ?_⟩
  · exact ⟨le_rfl, le_rfl, le_rfl, le_rfl, le_rfl, le_rfl, le_rfl, le_rfl, le_rfl,
      le_rfl, le_rfl, le_rfl⟩
  · intro tf prev outcome hprev hout
    cases outcome with
    | failure => exact hprev
    | success input => exact key tf input (by simpa [outcomeNonneg] using hout)

/-- Witness for claim C10 on concrete non-negative data. -/
theorem metrics_nonneg_invariant_witness :
    inputNonneg
        { psid := some { today_count := some 2 }
          intentRows := some [{ intent_type := "Lead", today_count := some 3 }]
          purchases := some [{ value := some 5 }] } = true ∧
      metricsNonneg (computeMetrics TimeFrame.today
        { psid := some { today_count := some 2 }
          intentRows := some [{ intent_type := "Lead", today_count := some 3 }]
          purchases := some [{ value := some 5 }] }) :=
  ⟨by decide,
    metrics_nonneg_invariant.1 TimeFrame.today
      { psid := some { today_count := some 2 }
        intentRows := some [{ intent_type := "Lead", today_count := some 3 }]
        purchases := some [{ value := some 5 }] } (by decide)⟩

end BMS
